import Mathlib

/-!
Verification of the extraction orchestration core of x3f_extract.c
(X3F batch extraction driver).

The embedding models C strings as lists of characters, the bounded string
operations safecpy / safecat faithfully (including the strnlen capping),
the path synthesis make_paths, the command-line parse loop of main, and
the per-file extraction pipeline of main.  External collaborator calls
(fopen, x3f_new_from_file, the dump functions, rename, stat) are modelled
by an oracle structure Env giving each call's success or failure; the
driver's observable behaviour (error counts, which dump calls are made,
which final paths get published by a successful rename) is computed from
that oracle.
-/

/-- C strings (no interior NUL bytes) as lists of characters. -/
abbrev CStr : Type := List Char

/-- Shorthand turning a Lean string literal into a modelled C string. -/
def str (s : String) : CStr := s.toList

/-- Length of a modelled C string. -/
def CStr.len (s : CStr) : Nat := List.length s

/-- Model of C strnlen: the length of the string, capped at maxlen. -/
def strnlen (s : CStr) (maxlen : Nat) : Nat := min s.len maxlen

/-- MAXPATH from x3f_extract.c. -/
def MAXPATH : Nat := 1000

/-- EXTMAX from x3f_extract.c. -/
def EXTMAX : Nat := 10

/-- MAXOUTPATH from x3f_extract.c. -/
def MAXOUTPATH : Nat := MAXPATH + EXTMAX

/-- MAXTMPPATH from x3f_extract.c. -/
def MAXTMPPATH : Nat := MAXOUTPATH + EXTMAX

/-- Model of safecpy(dst, src, dst_size): returns the C return value and the
destination contents afterwards.  Mirrors
  if (strnlen(src, dst_size+1) > dst_size) return 1; else strcpy(dst, src). -/
def safecpy (dst src : CStr) (dst_size : Nat) : Nat × CStr :=
  if strnlen src (dst_size + 1) > dst_size then (1, dst) else (0, src)

/-- Model of safecat(dst, src, dst_size): returns the C return value and the
destination contents afterwards.  Mirrors
  if (strnlen(dst, dst_size+1) + strnlen(src, dst_size+1) > dst_size) return 1;
  else strcat(dst, src). -/
def safecat (dst src : CStr) (dst_size : Nat) : Nat × CStr :=
  if strnlen dst (dst_size + 1) + strnlen src (dst_size + 1) > dst_size then (1, dst)
  else (0, dst ++ src)

/-- The suffix of a path after its last slash; mirrors ptr+1 where
ptr = strrchr(inpath, the slash character). -/
def after_last_slash (inpath : CStr) : CStr :=
  ((List.reverse inpath).takeWhile (fun c => c ≠ '/')).reverse

/-- Model of make_paths(inpath, outdir, ext, tmppath, outpath).  The three
extra arguments buf0, out0, tmp0 are the initial (uninitialized in C)
contents of the stack buffers pathbuffer, outpath and tmppath.  Returns
the accumulated err value together with the final contents of tmppath
and outpath. -/
def make_paths (inpath : CStr) (outdir : Option CStr) (ext : CStr)
    (buf0 out0 tmp0 : CStr) : Nat × CStr × CStr :=
  let ep : Nat × CStr :=
    match outdir with
    | none => (0, inpath)
    | some d =>
      let r1 := safecpy buf0 d MAXPATH
      let r2 := safecat r1.2 (str "/") MAXPATH
      let r3 :=
        if List.contains inpath '/' then safecat r2.2 (after_last_slash inpath) MAXPATH
        else safecat r2.2 inpath MAXPATH
      (r1.1 + r2.1 + r3.1, r3.2)
  let r4 := safecpy out0 ep.2 MAXOUTPATH
  let r5 := safecat r4.2 ext MAXOUTPATH
  let r6 := safecpy tmp0 r5.2 MAXTMPPATH
  let r7 := safecat r6.2 (str ".tmp") MAXTMPPATH
  (ep.1 + r4.1 + r5.1 + r6.1 + r7.1, r7.2, r5.2)

/-- The raw_file_type_t enumeration of x3f_extract.c. -/
inductive RawFileType
  | RAW | TIFF | DNG | PPMP3 | PPMP6 | HISTOGRAM
deriving DecidableEq

/-- The x3f_color_encoding_t values used by x3f_extract.c. -/
inductive ColorEncoding
  | NONE | SRGB | ARGB | PPRGB | UNPROCESSED | QTOP
deriving DecidableEq

/-- The run configuration assembled by the argument parse loop of main
(the local variables of main plus the process-wide globals legacy_offset
and max_printed_matrix_elements, stored here as the raw option tokens). -/
structure Config where
  extract_jpg : Bool
  extract_meta : Bool
  extract_raw : Bool
  crop : Bool
  denoise : Bool
  file_type : RawFileType
  color_encoding : ColorEncoding
  log_hist : Bool
  wb : Option CStr
  use_opencl : Bool
  outdir : Option CStr
  offset_arg : Option CStr
  matrixmax_arg : Option CStr
deriving DecidableEq

/-- The initial values of main's configuration variables. -/
def defaultConfig : Config :=
  { extract_jpg := false
    extract_meta := false
    extract_raw := true
    crop := false
    denoise := false
    file_type := RawFileType.DNG
    color_encoding := ColorEncoding.NONE
    log_hist := false
    wb := none
    use_opencl := false
    outdir := none
    offset_arg := none
    matrixmax_arg := none }

/-- Outcome of the argument parse loop: either usage() was called (which
exits with status 1), or a configuration plus the input file list. -/
inductive ParseResult
  | usage_err
  | ok (cfg : Config) (files : List CStr)
deriving DecidableEq

/-- Model of the argument parse loop of main (the for loop over argv with
the else-if chain).  Takes the argument tokens after the program name and
the configuration so far.  Flags taking a value consume the next token;
when the value is missing the C condition fails and the token falls
through to the leading-dash check, which calls usage().  The first token
not starting with a dash ends the loop and starts the file list. -/
def parse_loop : List CStr → Config → ParseResult
  | [], cfg => ParseResult.ok cfg []
  | a :: rest, cfg =>
    if a = str "-jpg" then
      parse_loop rest { cfg with extract_raw := false, extract_jpg := true }
    else if a = str "-meta" then
      parse_loop rest { cfg with extract_raw := false, extract_meta := true }
    else if a = str "-raw" then
      parse_loop rest { cfg with extract_raw := true, file_type := RawFileType.RAW }
    else if a = str "-tiff" then
      parse_loop rest { cfg with extract_raw := true, file_type := RawFileType.TIFF }
    else if a = str "-dng" then
      parse_loop rest { cfg with extract_raw := true, file_type := RawFileType.DNG }
    else if a = str "-ppm-ascii" then
      parse_loop rest { cfg with extract_raw := true, file_type := RawFileType.PPMP3 }
    else if a = str "-ppm" then
      parse_loop rest { cfg with extract_raw := true, file_type := RawFileType.PPMP6 }
    else if a = str "-histogram" then
      parse_loop rest { cfg with extract_raw := true, file_type := RawFileType.HISTOGRAM }
    else if a = str "-loghist" then
      parse_loop rest
        { cfg with extract_raw := true, file_type := RawFileType.HISTOGRAM, log_hist := true }
    else if a = str "-color" then
      match rest with
      | [] => ParseResult.usage_err
      | e :: rest2 =>
        if e = str "sRGB" then
          parse_loop rest2 { cfg with color_encoding := ColorEncoding.SRGB }
        else if e = str "AdobeRGB" then
          parse_loop rest2 { cfg with color_encoding := ColorEncoding.ARGB }
        else if e = str "ProPhotoRGB" then
          parse_loop rest2 { cfg with color_encoding := ColorEncoding.PPRGB }
        else ParseResult.usage_err
    else if a = str "-o" then
      match rest with
      | [] => ParseResult.usage_err
      | d :: rest2 => parse_loop rest2 { cfg with outdir := some d }
    else if a = str "-unprocessed" then
      parse_loop rest { cfg with color_encoding := ColorEncoding.UNPROCESSED }
    else if a = str "-qtop" then
      parse_loop rest { cfg with color_encoding := ColorEncoding.QTOP }
    else if a = str "-crop" then
      parse_loop rest { cfg with crop := true }
    else if a = str "-denoise" then
      parse_loop rest { cfg with denoise := true }
    else if a = str "-wb" then
      match rest with
      | [] => ParseResult.usage_err
      | w :: rest2 => parse_loop rest2 { cfg with wb := some w }
    else if a = str "-ocl" then
      parse_loop rest { cfg with use_opencl := true }
    else if a = str "-offset" then
      match rest with
      | [] => ParseResult.usage_err
      | v :: rest2 => parse_loop rest2 { cfg with offset_arg := some v }
    else if a = str "-matrixmax" then
      match rest with
      | [] => ParseResult.usage_err
      | v :: rest2 => parse_loop rest2 { cfg with matrixmax_arg := some v }
    else if List.head? a = some '-' then ParseResult.usage_err
    else ParseResult.ok cfg (a :: rest)

/-- Oracle for all external collaborator calls made by main, keyed by the
input file name (the x3f handle is in one-to-one correspondence with the
input file within one iteration) or, for rename, by the path pair. -/
structure Env where
  fopen_ok : CStr → Bool
  read_ok : CStr → Bool
  load_raw_ok : CStr → Bool
  dump_jpeg_ok : CStr → Bool
  dump_meta_ok : CStr → Bool
  dump_raw_ok : CStr → Bool
  rename_ok : CStr → CStr → Bool
  dir_ok : CStr → Bool

/-- Observable per-file state: errors counted so far, the temporary paths
for which a dump collaborator call was invoked, and the final paths
successfully published by rename. -/
structure St where
  errs : Nat
  dumped : List CStr
  published : List CStr
deriving DecidableEq

/-- The dump-then-rename step shared by the three output stages of main:
the dump call is made on the temporary path; on dump failure one error is
counted; on dump success the rename publishes the final path, counting
one error if the rename fails. -/
def dump_and_publish (dok : Bool) (ren : CStr → CStr → Bool)
    (tmp out : CStr) (s : St) : St :=
  let s1 : St := { s with dumped := s.dumped ++ [tmp] }
  if dok then
    if ren tmp out then { s1 with published := s1.published ++ [out] }
    else { s1 with errs := s1.errs + 1 }
  else { s1 with errs := s1.errs + 1 }

/-- The jpeg-preview stage of main's per-file body (the extract_jpg block).
An Except.error result models goto found_error; the thumbnail load call
x3f_load_data on the thumb has its return value ignored by the C code and
so has no observable effect. -/
def stage_jpg (cfg : Config) (env : Env) (infile : CStr) (s : St) : Except St St :=
  if cfg.extract_jpg then
    let r := make_paths infile cfg.outdir (str ".jpg") [] [] []
    if r.1 ≠ 0 then Except.error s
    else Except.ok (dump_and_publish (env.dump_jpeg_ok infile) env.rename_ok r.2.1 r.2.2 s)
  else Except.ok s

/-- The metadata stage of main's per-file body (the extract_meta block).
The prop and camf loads before it have their return values ignored by the
C code and so have no observable effect. -/
def stage_meta (cfg : Config) (env : Env) (infile : CStr) (s : St) : Except St St :=
  if cfg.extract_meta then
    let r := make_paths infile cfg.outdir (str ".meta") [] [] []
    if r.1 ≠ 0 then Except.error s
    else Except.ok (dump_and_publish (env.dump_meta_ok infile) env.rename_ok r.2.1 r.2.2 s)
  else Except.ok s

/-- The file extension used by the raw extraction stage for each raw file
type, as hard-coded in the switch of main. -/
def raw_ext : RawFileType → CStr
  | RawFileType.RAW => str ".raw"
  | RawFileType.TIFF => str ".tif"
  | RawFileType.DNG => str ".dng"
  | RawFileType.PPMP3 => str ".ppm"
  | RawFileType.PPMP6 => str ".ppm"
  | RawFileType.HISTOGRAM => str ".csv"

/-- The raw extraction stage of main's per-file body (the extract_raw
block): load the raw block (goto found_error on failure), synthesize the
paths for the extension of the selected file type (goto found_error on
failure), then dump and publish. -/
def stage_raw (cfg : Config) (env : Env) (infile : CStr) (s : St) : Except St St :=
  if cfg.extract_raw then
    if env.load_raw_ok infile = false then Except.error s
    else
      let r := make_paths infile cfg.outdir (raw_ext cfg.file_type) [] [] []
      if r.1 ≠ 0 then Except.error s
      else Except.ok (dump_and_publish (env.dump_raw_ok infile) env.rename_ok r.2.1 r.2.2 s)
  else Except.ok s

/-- Model of one iteration of main's file loop for one input file: open
(goto found_error on failure), read the container (goto found_error on
failure), then the jpeg, metadata and raw stages in order; found_error
adds exactly one further error to whatever the completed stages already
counted; cleanup always runs and has no observable effect here. -/
def process_file (cfg : Config) (env : Env) (infile : CStr) : St :=
  if env.fopen_ok infile = false then { errs := 1, dumped := [], published := [] }
  else if env.read_ok infile = false then { errs := 1, dumped := [], published := [] }
  else
    match stage_jpg cfg env infile { errs := 0, dumped := [], published := [] } with
    | Except.error s => { s with errs := s.errs + 1 }
    | Except.ok s =>
      match stage_meta cfg env infile s with
      | Except.error s2 => { s2 with errs := s2.errs + 1 }
      | Except.ok s2 =>
        match stage_raw cfg env infile s2 with
        | Except.error s3 => { s3 with errs := s3.errs + 1 }
        | Except.ok s3 => s3

/-- Model of main's file loop: processes the input files in order,
counting every file once (files++ happens before any check) and summing
the per-file error counts; the dump and publish traces concatenate in
processing order.  Returns the files count and the accumulated state. -/
def run_files (cfg : Config) (env : Env) : List CStr → Nat × St
  | [] => (0, { errs := 0, dumped := [], published := [] })
  | f :: fs =>
    let r := process_file cfg env f
    let rec_result := run_files cfg env fs
    (rec_result.1 + 1,
     { errs := r.errs + rec_result.2.errs,
       dumped := r.dumped ++ rec_result.2.dumped,
       published := r.published ++ rec_result.2.published })

/-- Result of a whole run of main on the arguments after the program
name: either usage() was reached (exit status 1, no summary printed), or
the run completed normally with a files count, an error count and the
published final paths. -/
inductive MainResult
  | usage_exit
  | normal (files : Nat) (errors : Nat) (published : List CStr)
deriving DecidableEq

/-- The process exit status of each main outcome: usage() calls exit(1);
a normal run returns errors > 0. -/
def exit_code : MainResult → Nat
  | MainResult.usage_exit => 1
  | MainResult.normal _ e _ => if e > 0 then 1 else 0

/-- Model of main on the argument tokens after the program name: parse
the flags (usage on a parse error), check the output directory with
check_dir if one was given (usage on failure), run the file loop, and
call usage if no file was counted; otherwise report the summary. -/
def x3f_main (env : Env) (args : List CStr) : MainResult :=
  match parse_loop args defaultConfig with
  | ParseResult.usage_err => MainResult.usage_exit
  | ParseResult.ok cfg fileList =>
    let finish : MainResult :=
      let r := run_files cfg env fileList
      if r.1 = 0 then MainResult.usage_exit
      else MainResult.normal r.1 r.2.errs r.2.published
    match cfg.outdir with
    | some d => if env.dir_ok d = false then MainResult.usage_exit else finish
    | none => finish

/-- An oracle in which every collaborator call succeeds. -/
def envAll : Env :=
  { fopen_ok := fun _ => true
    read_ok := fun _ => true
    load_raw_ok := fun _ => true
    dump_jpeg_ok := fun _ => true
    dump_meta_ok := fun _ => true
    dump_raw_ok := fun _ => true
    rename_ok := fun _ _ => true
    dir_ok := fun _ => true }

/-! Helper lemmas about the bounded string operations. -/

lemma safecpy_of_le (dst src : CStr) (sz : Nat) (h : src.len ≤ sz) :
    safecpy dst src sz = (0, src) := by
  simp only [safecpy, strnlen, gt_iff_lt]
  rw [if_neg (by omega)]

lemma safecpy_of_gt (dst src : CStr) (sz : Nat) (h : sz < src.len) :
    safecpy dst src sz = (1, dst) := by
  simp only [safecpy, strnlen, gt_iff_lt]
  rw [if_pos (by omega)]

lemma safecat_of_le (dst src : CStr) (sz : Nat) (h : dst.len + src.len ≤ sz) :
    safecat dst src sz = (0, dst ++ src) := by
  simp only [safecat, strnlen, gt_iff_lt]
  rw [if_neg (by omega)]

lemma safecat_of_gt (dst src : CStr) (sz : Nat) (hd : dst.len ≤ sz)
    (h : sz < dst.len + src.len) : safecat dst src sz = (1, dst) := by
  simp only [safecat, strnlen, gt_iff_lt]
  rw [if_pos (by omega)]

lemma len_append (a b : CStr) : (a ++ b).len = a.len + b.len := by
  simp [CStr.len]

/-- C1: For every run that reaches the end of processing (a normal result,
so no fatal usage error), the exit status is 0 iff the accumulated error
count is 0, and 1 iff the accumulated error count is positive; so the
exit status is 1 exactly when at least one error was counted. -/
theorem exit_status_iff_errors (env : Env) (args : List CStr) (n e : Nat)
    (pub : List CStr) (h : x3f_main env args = MainResult.normal n e pub) :
    (exit_code (x3f_main env args) = 0 ↔ e = 0) ∧
    (exit_code (x3f_main env args) = 1 ↔ 0 < e) := by
  rw [h]
  by_cases he : 0 < e <;> simp [exit_code, he] <;> omega

/-- Witness for C1: a concrete successful run of one file with the default
configuration reaches a normal result with zero errors and exit status 0. -/
theorem exit_status_iff_errors_witness :
    (exit_code (x3f_main envAll [str "f"]) = 0 ↔ 0 = 0) ∧
    (exit_code (x3f_main envAll [str "f"]) = 1 ↔ 0 < 0) :=
  exit_status_iff_errors envAll [str "f"] 1 0 [str "f.dng"] (by decide)

/-- C2: Path synthesis within the documented bounds: with no output
directory the final path is the input path followed by the extension;
with an output directory it is the directory, a slash, the part of the
input path after its last slash (the whole input path when it has no
slash), then the extension; in both cases the temporary path is the
final path with the .tmp suffix appended, and make_paths reports no
error. -/
theorem make_paths_spec (inpath ext b o t : CStr) :
    (inpath.len + ext.len ≤ MAXOUTPATH →
      make_paths inpath none ext b o t =
        (0, (inpath ++ ext) ++ str ".tmp", inpath ++ ext)) ∧
    (∀ outdir : CStr,
      outdir.len + 1 + (after_last_slash inpath).len ≤ MAXPATH →
      outdir.len + 1 + (after_last_slash inpath).len + ext.len ≤ MAXOUTPATH →
      make_paths inpath (some outdir) ext b o t =
        (0, (((outdir ++ str "/") ++ after_last_slash inpath) ++ ext) ++ str ".tmp",
            ((outdir ++ str "/") ++ after_last_slash inpath) ++ ext)) := by
  have hslash : (str "/").len = 1 := by decide
  have htmp : (str ".tmp").len = 4 := by decide
  constructor
  · intro h
    simp only [MAXOUTPATH, MAXPATH, EXTMAX] at h
    have h4 : safecpy o inpath MAXOUTPATH = (0, inpath) :=
      safecpy_of_le _ _ _
        (by simp only [MAXOUTPATH, MAXPATH, EXTMAX]; omega)
    have h5 : safecat inpath ext MAXOUTPATH = (0, inpath ++ ext) :=
      safecat_of_le _ _ _
        (by simp only [MAXOUTPATH, MAXPATH, EXTMAX]; omega)
    have h6 : safecpy t (inpath ++ ext) MAXTMPPATH = (0, inpath ++ ext) :=
      safecpy_of_le _ _ _
        (by simp only [len_append, MAXTMPPATH, MAXOUTPATH, MAXPATH, EXTMAX]; omega)
    have h7 : safecat (inpath ++ ext) (str ".tmp") MAXTMPPATH =
        (0, (inpath ++ ext) ++ str ".tmp") :=
      safecat_of_le _ _ _
        (by simp only [len_append, htmp, MAXTMPPATH, MAXOUTPATH, MAXPATH, EXTMAX]; omega)
    simp only [make_paths, h4, h5, h6, h7]
  · intro outdir hb h2
    simp only [MAXOUTPATH, MAXPATH, EXTMAX] at hb h2
    have h1 : safecpy b outdir MAXPATH = (0, outdir) :=
      safecpy_of_le _ _ _ (by simp only [MAXPATH]; omega)
    have h2' : safecat outdir (str "/") MAXPATH = (0, outdir ++ str "/") :=
      safecat_of_le _ _ _ (by simp only [hslash, MAXPATH]; omega)
    have h3 : safecat (outdir ++ str "/") (after_last_slash inpath) MAXPATH =
        (0, (outdir ++ str "/") ++ after_last_slash inpath) :=
      safecat_of_le _ _ _ (by simp only [len_append, hslash, MAXPATH]; omega)
    have h4 : safecpy o ((outdir ++ str "/") ++ after_last_slash inpath) MAXOUTPATH =
        (0, (outdir ++ str "/") ++ after_last_slash inpath) :=
      safecpy_of_le _ _ _
        (by simp only [len_append, hslash, MAXOUTPATH, MAXPATH, EXTMAX]; omega)
    have h5 : safecat ((outdir ++ str "/") ++ after_last_slash inpath) ext MAXOUTPATH =
        (0, ((outdir ++ str "/") ++ after_last_slash inpath) ++ ext) :=
      safecat_of_le _ _ _
        (by simp only [len_append, hslash, MAXOUTPATH, MAXPATH, EXTMAX]; omega)
    have h6 : safecpy t (((outdir ++ str "/") ++ after_last_slash inpath) ++ ext)
        MAXTMPPATH = (0, ((outdir ++ str "/") ++ after_last_slash inpath) ++ ext) :=
      safecpy_of_le _ _ _
        (by simp only [len_append, hslash, MAXTMPPATH, MAXOUTPATH, MAXPATH, EXTMAX]; omega)
    have h7 : safecat (((outdir ++ str "/") ++ after_last_slash inpath) ++ ext)
        (str ".tmp") MAXTMPPATH =
        (0, (((outdir ++ str "/") ++ after_last_slash inpath) ++ ext) ++ str ".tmp") :=
      safecat_of_le _ _ _
        (by simp only [len_append, hslash, htmp, MAXTMPPATH, MAXOUTPATH, MAXPATH, EXTMAX]
            omega)
    by_cases hc : List.contains inpath '/' = true
    · simp only [make_paths, if_pos hc, h1, h2', h3, h4, h5, h6, h7]
    · have hno : after_last_slash inpath = inpath := by
        unfold after_last_slash
        rw [List.takeWhile_eq_self_iff.mpr, List.reverse_reverse]
        intro a ha
        simp only [List.contains, List.elem_eq_mem, decide_eq_true_eq] at hc
        simp only [decide_eq_true_eq]
        intro heq
        exact hc (heq ▸ (List.mem_reverse.mp ha))
      rw [hno] at h3 h4 h5 h6 h7 ⊢
      simp only [make_paths, if_neg hc, h1, h2', h3, h4, h5, h6, h7]

/-- Witness for C2: the worked example from the specification, input
a/b/c.x3f with output directory /tmp/out and extension .dng, yields the
final path /tmp/out/c.x3f.dng and temporary path /tmp/out/c.x3f.dng.tmp. -/
theorem make_paths_spec_witness :
    make_paths (str "a/b/c.x3f") (some (str "/tmp/out")) (str ".dng") [] [] [] =
      (0, str "/tmp/out/c.x3f.dng.tmp", str "/tmp/out/c.x3f.dng") := by
  have h := (make_paths_spec (str "a/b/c.x3f") (str ".dng") [] [] []).2
    (str "/tmp/out") (by decide) (by decide)
  rw [h]
  decide

/-- C3: The bounded copy safecpy with a source of length exactly dst_size
succeeds and the destination afterwards holds the source verbatim; with a
source of length dst_size + 1 or more it fails and the destination is
unchanged. -/
theorem safecpy_exact_and_overflow (dst src : CStr) (dst_size : Nat) :
    (src.len = dst_size → safecpy dst src dst_size = (0, src)) ∧
    (dst_size + 1 ≤ src.len → safecpy dst src dst_size = (1, dst)) :=
  ⟨fun h => safecpy_of_le _ _ _ (by omega),
   fun h => safecpy_of_gt _ _ _ (by omega)⟩

/-- Witness for C3: a three-character source into capacity 3 succeeds
verbatim; a four-character source into capacity 3 fails and leaves the
destination untouched. -/
theorem safecpy_exact_and_overflow_witness :
    safecpy (str "xy") (str "abc") 3 = (0, str "abc") ∧
    safecpy (str "xy") (str "abcd") 3 = (1, str "xy") :=
  ⟨(safecpy_exact_and_overflow (str "xy") (str "abc") 3).1 (by decide),
   (safecpy_exact_and_overflow (str "xy") (str "abcd") 3).2 (by decide)⟩

/-- C9: For every destination whose current contents have length at most
dst_size and every source string, safecat either fails leaving the
destination unchanged, or succeeds with the result being the
concatenation, whose length is the sum of the two lengths and at most
dst_size; hence a buffer of dst_size + 1 bytes is never overrun. -/
theorem safecat_never_overflows (dst src : CStr) (dst_size : Nat)
    (h : dst.len ≤ dst_size) :
    safecat dst src dst_size = (1, dst) ∨
    (safecat dst src dst_size = (0, dst ++ src) ∧
      (dst ++ src).len = dst.len + src.len ∧ (dst ++ src).len ≤ dst_size) := by
  by_cases hs : dst.len + src.len ≤ dst_size
  · exact Or.inr ⟨safecat_of_le _ _ _ hs, by rw [len_append], by rw [len_append]; omega⟩
  · exact Or.inl (safecat_of_gt _ _ _ h (by omega))

/-- Witness for C9: a two-character destination of capacity 4 accepting a
two-character source lands in the success branch with total length 4. -/
theorem safecat_never_overflows_witness :
    safecat (str "ab") (str "cd") 4 = (1, str "ab") ∨
    (safecat (str "ab") (str "cd") 4 = (0, str "ab" ++ str "cd") ∧
      (str "ab" ++ str "cd").len = (str "ab").len + (str "cd").len ∧
      (str "ab" ++ str "cd").len ≤ 4) :=
  safecat_never_overflows (str "ab") (str "cd") 4 (by decide)

/-- C7: If no input file remains after flag parsing, the run is a fatal
usage error: main reaches usage() with exit status 1, the outcome does
not depend on any file-processing oracle, and it is never a normal
(successful empty) run. -/
theorem no_files_is_usage_error (env : Env) (args : List CStr) (cfg : Config)
    (h : parse_loop args defaultConfig = ParseResult.ok cfg []) :
    x3f_main env args = MainResult.usage_exit ∧
    exit_code (x3f_main env args) = 1 ∧
    ∀ (n e : Nat) (pub : List CStr), x3f_main env args ≠ MainResult.normal n e pub := by
  have hm : x3f_main env args = MainResult.usage_exit := by
    simp only [x3f_main, h]
    cases hdo : cfg.outdir with
    | none => simp [run_files]
    | some d => by_cases hd : env.dir_ok d = false <;> simp [hd, run_files]
  exact ⟨hm, by rw [hm]; rfl, fun n e pub => by rw [hm]; intro hcon; exact nomatch hcon⟩

/-- Witness for C7: a single flag token and no file yields usage with exit
status 1 even though every collaborator call would have succeeded. -/
theorem no_files_is_usage_error_witness :
    x3f_main envAll [str "-crop"] = MainResult.usage_exit ∧
    exit_code (x3f_main envAll [str "-crop"]) = 1 ∧
    ∀ (n e : Nat) (pub : List CStr),
      x3f_main envAll [str "-crop"] ≠ MainResult.normal n e pub :=
  no_files_is_usage_error envAll [str "-crop"]
    { defaultConfig with crop := true } (by decide)

/-- C8: If an output directory is supplied and check_dir rejects it, the
whole run aborts as a usage error with exit status 1; the outcome is the
same for every oracle agreeing on the directory check, so no input file
is opened or processed. -/
theorem invalid_outdir_aborts (env : Env) (args : List CStr) (cfg : Config)
    (fl : List CStr) (d : CStr)
    (h : parse_loop args defaultConfig = ParseResult.ok cfg fl)
    (hd : cfg.outdir = some d) (hbad : env.dir_ok d = false) :
    x3f_main env args = MainResult.usage_exit ∧
    exit_code (x3f_main env args) = 1 ∧
    ∀ env2 : Env, env2.dir_ok = env.dir_ok →
      x3f_main env2 args = MainResult.usage_exit := by
  have key : ∀ env2 : Env, env2.dir_ok = env.dir_ok →
      x3f_main env2 args = MainResult.usage_exit := by
    intro env2 he
    simp [x3f_main, h, hd, he, hbad]
  exact ⟨key env rfl, by rw [key env rfl]; rfl, key⟩

/-- Witness for C8: with a rejecting directory check the run with an
output directory flag is a usage exit with status 1 although every
file-processing call would have succeeded. -/
theorem invalid_outdir_aborts_witness :
    x3f_main { envAll with dir_ok := fun _ => false } [str "-o", str "d", str "f"] =
      MainResult.usage_exit ∧
    exit_code (x3f_main { envAll with dir_ok := fun _ => false }
      [str "-o", str "d", str "f"]) = 1 ∧
    ∀ env2 : Env, env2.dir_ok = ({ envAll with dir_ok := fun _ => false } : Env).dir_ok →
      x3f_main env2 [str "-o", str "d", str "f"] = MainResult.usage_exit :=
  invalid_outdir_aborts { envAll with dir_ok := fun _ => false }
    [str "-o", str "d", str "f"]
    { defaultConfig with outdir := some (str "d") } [str "f"] (str "d")
    (by decide) rfl rfl

/-- C10: The flags -jpg and -meta each disable the default raw extraction
(visible in their configuration updates, which set extract_raw to false);
raw extraction is re-enabled only by a later raw-kind flag among -raw,
-tiff, -dng, -ppm-ascii, -ppm, -histogram and -loghist (those updates set
extract_raw to true, while every other recognized flag's update leaves
extract_raw untouched); with no extraction flags at all exactly one raw
output of kind DNG is extracted; hence whether raw output accompanies
jpeg output depends on flag order. -/
theorem flag_order_raw_extraction :
    (defaultConfig.extract_raw = true ∧ defaultConfig.file_type = RawFileType.DNG ∧
     defaultConfig.extract_jpg = false ∧ defaultConfig.extract_meta = false) ∧
    (∀ (rest : List CStr) (cfg : Config),
      parse_loop (str "-jpg" :: rest) cfg =
        parse_loop rest { cfg with extract_raw := false, extract_jpg := true } ∧
      parse_loop (str "-meta" :: rest) cfg =
        parse_loop rest { cfg with extract_raw := false, extract_meta := true } ∧
      parse_loop (str "-raw" :: rest) cfg =
        parse_loop rest { cfg with extract_raw := true, file_type := RawFileType.RAW } ∧
      parse_loop (str "-tiff" :: rest) cfg =
        parse_loop rest { cfg with extract_raw := true, file_type := RawFileType.TIFF } ∧
      parse_loop (str "-dng" :: rest) cfg =
        parse_loop rest { cfg with extract_raw := true, file_type := RawFileType.DNG } ∧
      parse_loop (str "-ppm-ascii" :: rest) cfg =
        parse_loop rest { cfg with extract_raw := true, file_type := RawFileType.PPMP3 } ∧
      parse_loop (str "-ppm" :: rest) cfg =
        parse_loop rest { cfg with extract_raw := true, file_type := RawFileType.PPMP6 } ∧
      parse_loop (str "-histogram" :: rest) cfg =
        parse_loop rest
          { cfg with extract_raw := true, file_type := RawFileType.HISTOGRAM } ∧
      parse_loop (str "-loghist" :: rest) cfg =
        parse_loop rest
          { cfg with extract_raw := true, file_type := RawFileType.HISTOGRAM,
                     log_hist := true }) ∧
    (∀ (rest : List CStr) (cfg : Config),
      parse_loop (str "-crop" :: rest) cfg = parse_loop rest { cfg with crop := true } ∧
      parse_loop (str "-denoise" :: rest) cfg =
        parse_loop rest { cfg with denoise := true } ∧
      parse_loop (str "-ocl" :: rest) cfg =
        parse_loop rest { cfg with use_opencl := true } ∧
      parse_loop (str "-unprocessed" :: rest) cfg =
        parse_loop rest { cfg with color_encoding := ColorEncoding.UNPROCESSED } ∧
      parse_loop (str "-qtop" :: rest) cfg =
        parse_loop rest { cfg with color_encoding := ColorEncoding.QTOP }) ∧
    (∀ (v : CStr) (rest : List CStr) (cfg : Config),
      parse_loop (str "-o" :: v :: rest) cfg =
        parse_loop rest { cfg with outdir := some v } ∧
      parse_loop (str "-wb" :: v :: rest) cfg =
        parse_loop rest { cfg with wb := some v } ∧
      parse_loop (str "-offset" :: v :: rest) cfg =
        parse_loop rest { cfg with offset_arg := some v } ∧
      parse_loop (str "-matrixmax" :: v :: rest) cfg =
        parse_loop rest { cfg with matrixmax_arg := some v } ∧
      parse_loop (str "-color" :: str "sRGB" :: rest) cfg =
        parse_loop rest { cfg with color_encoding := ColorEncoding.SRGB } ∧
      parse_loop (str "-color" :: str "AdobeRGB" :: rest) cfg =
        parse_loop rest { cfg with color_encoding := ColorEncoding.ARGB } ∧
      parse_loop (str "-color" :: str "ProPhotoRGB" :: rest) cfg =
        parse_loop rest { cfg with color_encoding := ColorEncoding.PPRGB }) ∧
    (x3f_main envAll [str "f"] = MainResult.normal 1 0 [str "f.dng"] ∧
     x3f_main envAll [str "-jpg", str "f"] = MainResult.normal 1 0 [str "f.jpg"] ∧
     x3f_main envAll [str "-jpg", str "-dng", str "f"] =
       MainResult.normal 1 0 [str "f.jpg", str "f.dng"] ∧
     x3f_main envAll [str "-dng", str "-jpg", str "f"] =
       MainResult.normal 1 0 [str "f.jpg"]) := by
  refine ⟨⟨rfl, rfl, rfl, rfl⟩,
    fun rest cfg => ⟨?_, ?_, ?_, ?_, ?_, ?_, ?_, ?_, ?_⟩,
    fun rest cfg => ⟨?_, ?_, ?_, ?_, ?_⟩,
    fun v rest cfg => ⟨?_, ?_, ?_, ?_, ?_, ?_, ?_⟩,
    ⟨by decide, by decide, by decide, by decide⟩⟩ <;>
  · rw [parse_loop.eq_def]
    simp [str]

/-! Helper lemmas about the file loop. -/

lemma run_files_count (cfg : Config) (env : Env) (l : List CStr) :
    (run_files cfg env l).1 = l.length := by
  induction l with
  | nil => rfl
  | cons f fs ih => simp [run_files, ih]

lemma run_files_append (cfg : Config) (env : Env) (l1 l2 : List CStr) :
    run_files cfg env (l1 ++ l2) =
      ((run_files cfg env l1).1 + (run_files cfg env l2).1,
       { errs := (run_files cfg env l1).2.errs + (run_files cfg env l2).2.errs,
         dumped := (run_files cfg env l1).2.dumped ++ (run_files cfg env l2).2.dumped,
         published := (run_files cfg env l1).2.published ++
           (run_files cfg env l2).2.published }) := by
  induction l1 with
  | nil => simp [run_files]
  | cons f fs ih =>
    simp only [List.cons_append, run_files, List.append_eq, ih, Prod.mk.injEq,
      St.mk.injEq, List.append_assoc]
    refine ⟨by omega, by omega, trivial, trivial⟩

lemma process_file_open_fail (cfg : Config) (env : Env) (f : CStr)
    (h : env.fopen_ok f = false) :
    process_file cfg env f = { errs := 1, dumped := [], published := [] } := by
  simp [process_file, h]

/-- An oracle in which opening the file named b fails and every other
collaborator call succeeds. -/
def envSecondMissing : Env :=
  { envAll with fopen_ok := fun f => decide (f ≠ str "b") }

/-- C6: A failure on one input file never aborts the batch: the files
count always equals the number of supplied files, the loop result over a
concatenation is the merge of the independent results of the parts (so a
failing file cannot influence the processing of the others), a file whose
open fails contributes exactly one error and no output, and in the
concrete three-file run whose second file is missing the summary is
3 files, 1 error, exit status 1, with the first and third files still
published. -/
theorem batch_continues_after_file_failure :
    (∀ (cfg : Config) (env : Env) (l : List CStr),
      (run_files cfg env l).1 = l.length) ∧
    (∀ (cfg : Config) (env : Env) (l1 l2 : List CStr),
      run_files cfg env (l1 ++ l2) =
        ((run_files cfg env l1).1 + (run_files cfg env l2).1,
         { errs := (run_files cfg env l1).2.errs + (run_files cfg env l2).2.errs,
           dumped := (run_files cfg env l1).2.dumped ++ (run_files cfg env l2).2.dumped,
           published := (run_files cfg env l1).2.published ++
             (run_files cfg env l2).2.published })) ∧
    (∀ (cfg : Config) (env : Env) (f : CStr), env.fopen_ok f = false →
      process_file cfg env f = { errs := 1, dumped := [], published := [] }) ∧
    (x3f_main envSecondMissing [str "a", str "b", str "c"] =
       MainResult.normal 3 1 [str "a.dng", str "c.dng"] ∧
     exit_code (x3f_main envSecondMissing [str "a", str "b", str "c"]) = 1) :=
  ⟨run_files_count, run_files_append,
   fun cfg env f h => process_file_open_fail cfg env f h,
   by decide, by decide⟩

/-- Witness for C6: the open-failure component applied to the missing
second file of the concrete run contributes exactly one error and no
output. -/
theorem batch_continues_after_file_failure_witness :
    process_file defaultConfig envSecondMissing (str "b") =
      { errs := 1, dumped := [], published := [] } :=
  batch_continues_after_file_failure.2.2.1 defaultConfig envSecondMissing
    (str "b") (by decide)

/-- C5: With both jpeg-preview and a raw-extraction kind requested for one
valid input file (paths synthesizable, container loadable, renames
succeeding), the two outputs are produced and published independently:
both dump calls are always made, and each final path is published exactly
when its own dump call succeeds, with one error per failing dump,
regardless of the other's outcome. -/
theorem jpg_and_raw_outputs_independent
    (cfg : Config) (env : Env) (infile tmpJ outJ tmpR outR : CStr)
    (hjpg : cfg.extract_jpg = true) (hmeta : cfg.extract_meta = false)
    (hraw : cfg.extract_raw = true)
    (hopen : env.fopen_ok infile = true) (hread : env.read_ok infile = true)
    (hload : env.load_raw_ok infile = true)
    (hpJ : make_paths infile cfg.outdir (str ".jpg") [] [] [] = (0, tmpJ, outJ))
    (hpR : make_paths infile cfg.outdir (raw_ext cfg.file_type) [] [] [] =
      (0, tmpR, outR))
    (hrenJ : env.rename_ok tmpJ outJ = true)
    (hrenR : env.rename_ok tmpR outR = true) :
    (process_file cfg env infile).dumped = [tmpJ, tmpR] ∧
    (process_file cfg env infile).published =
      (if env.dump_jpeg_ok infile then [outJ] else []) ++
      (if env.dump_raw_ok infile then [outR] else []) ∧
    (process_file cfg env infile).errs =
      (if env.dump_jpeg_ok infile then 0 else 1) +
      (if env.dump_raw_ok infile then 0 else 1) := by
  cases hdj : env.dump_jpeg_ok infile <;> cases hdr : env.dump_raw_ok infile <;>
    simp [process_file, stage_jpg, stage_meta, stage_raw, dump_and_publish,
      hjpg, hmeta, hraw, hopen, hread, hload, hpJ, hpR, hdj, hdr, hrenJ, hrenR]

/-- Witness for C5: a run in which only the jpeg dump call fails still
makes both dump calls, publishes the raw output, and counts one error. -/
theorem jpg_and_raw_outputs_independent_witness :
    (process_file { defaultConfig with extract_jpg := true }
       { envAll with dump_jpeg_ok := fun _ => false } (str "f")).dumped =
      [str "f.jpg.tmp", str "f.dng.tmp"] ∧
    (process_file { defaultConfig with extract_jpg := true }
       { envAll with dump_jpeg_ok := fun _ => false } (str "f")).published =
      (if ({ envAll with dump_jpeg_ok := fun _ => false } : Env).dump_jpeg_ok (str "f")
       then [str "f.jpg"] else []) ++
      (if ({ envAll with dump_jpeg_ok := fun _ => false } : Env).dump_raw_ok (str "f")
       then [str "f.dng"] else []) ∧
    (process_file { defaultConfig with extract_jpg := true }
       { envAll with dump_jpeg_ok := fun _ => false } (str "f")).errs =
      (if ({ envAll with dump_jpeg_ok := fun _ => false } : Env).dump_jpeg_ok (str "f")
       then 0 else 1) +
      (if ({ envAll with dump_jpeg_ok := fun _ => false } : Env).dump_raw_ok (str "f")
       then 0 else 1) :=
  jpg_and_raw_outputs_independent { defaultConfig with extract_jpg := true }
    { envAll with dump_jpeg_ok := fun _ => false } (str "f")
    (str "f.jpg.tmp") (str "f.jpg") (str "f.dng.tmp") (str "f.dng")
    rfl rfl rfl rfl rfl rfl (by decide) (by decide) rfl rfl

/-- The configuration requesting all three outputs: jpeg preview,
metadata and the default DNG raw extraction. -/
def cfgAllOutputs : Config :=
  { defaultConfig with extract_jpg := true, extract_meta := true }

/-- An input name of 1007 characters: long enough that appending any
4-character extension exceeds MAXOUTPATH, so path synthesis fails, while
the name itself stays within every copy bound. -/
def longInputName : CStr := List.replicate 1007 'a'

set_option maxRecDepth 100000 in
/-- Counterexample for C4: with jpeg, metadata and raw all requested, all
collaborator calls succeeding, and an input name whose synthesized jpeg
path exceeds the bound, the code counts exactly one error for the whole
file and makes no dump call at all - the metadata and raw outputs are not
attempted and no per-output errors are recorded, contradicting the
claim that only the jpeg output is abandoned with processing continuing
at the next requested output of the same file (which would attempt the
remaining outputs and count an error for each abandoned one, at least
two in total). -/
theorem path_too_long_abandons_file_cex :
    process_file cfgAllOutputs envAll longInputName =
      { errs := 1, dumped := [], published := [] } ∧
    ¬ 2 ≤ (process_file cfgAllOutputs envAll longInputName).errs ∧
    (process_file cfgAllOutputs envAll longInputName).dumped = [] :=
  ⟨by decide, by decide, by decide⟩

/-- C4 as amended: when path synthesis fails with a length-exceeded error
for the jpeg output of a file, the whole remainder of that file is
abandoned with exactly one error counted and nothing dumped or
published, and processing continues with the next input file, the other
files contributing exactly as if the failing file were absent. -/
theorem path_too_long_aborts_file
    (cfg : Config) (env : Env) (infile : CStr)
    (hjpg : cfg.extract_jpg = true)
    (hopen : env.fopen_ok infile = true) (hread : env.read_ok infile = true)
    (hfail : (make_paths infile cfg.outdir (str ".jpg") [] [] []).1 ≠ 0) :
    process_file cfg env infile = { errs := 1, dumped := [], published := [] } ∧
    ∀ l1 l2 : List CStr,
      run_files cfg env (l1 ++ infile :: l2) =
        ((run_files cfg env l1).1 + 1 + (run_files cfg env l2).1,
         { errs := (run_files cfg env l1).2.errs + 1 + (run_files cfg env l2).2.errs,
           dumped := (run_files cfg env l1).2.dumped ++ (run_files cfg env l2).2.dumped,
           published := (run_files cfg env l1).2.published ++
             (run_files cfg env l2).2.published }) := by
  have hpf : process_file cfg env infile =
      { errs := 1, dumped := [], published := [] } := by
    simp [process_file, stage_jpg, hjpg, hopen, hread, hfail]
  refine ⟨hpf, fun l1 l2 => ?_⟩
  rw [run_files_append cfg env l1 (infile :: l2)]
  simp only [run_files, hpf, Prod.mk.injEq, St.mk.injEq, List.nil_append]
  refine ⟨by omega, by omega, trivial, trivial⟩

set_option maxRecDepth 100000 in
/-- Witness for C4: the long input name between two short files: the long
file contributes one error and nothing else, while both neighbours are
processed exactly as in their own singleton runs. -/
theorem path_too_long_aborts_file_witness :
    process_file cfgAllOutputs envAll longInputName =
      { errs := 1, dumped := [], published := [] } ∧
    run_files cfgAllOutputs envAll ([str "x"] ++ longInputName :: [str "y"]) =
      ((run_files cfgAllOutputs envAll [str "x"]).1 + 1 +
         (run_files cfgAllOutputs envAll [str "y"]).1,
       { errs := (run_files cfgAllOutputs envAll [str "x"]).2.errs + 1 +
           (run_files cfgAllOutputs envAll [str "y"]).2.errs,
         dumped := (run_files cfgAllOutputs envAll [str "x"]).2.dumped ++
           (run_files cfgAllOutputs envAll [str "y"]).2.dumped,
         published := (run_files cfgAllOutputs envAll [str "x"]).2.published ++
           (run_files cfgAllOutputs envAll [str "y"]).2.published }) :=
  have h := path_too_long_aborts_file cfgAllOutputs envAll longInputName
    rfl rfl rfl (by decide)
  ⟨h.1, h.2 [str "x"] [str "y"]⟩
